import Mathlib

/-!
Shallow embedding of the git-istage-rs status model and its view-state
machinery: the status-entry operations of src/status.rs and the
selectable status list (StatefulList) of src/main.rs.

Side-effecting operations are modelled by the list of external effects
(filesystem deletions, git command invocations) they issue, in order.
A Rust panic -- a todo!() arm, a usize subtraction underflow in a debug
build, an out-of-bounds Vec index -- is modelled as the value none of an
Option-typed result.
-/

namespace GitIstage

/-- Change classification reported by the engine (git2's Delta), as
consumed by the From conversion in src/status.rs. -/
inductive Delta
  | Unmodified
  | Added
  | Deleted
  | Modified
  | Renamed
  | Copied
  | Ignored
  | Untracked
  | Typechange
  | Unreadable
  | Conflicted
  deriving DecidableEq, Repr

/-- The Status enumeration of src/status.rs (lines 115-128). -/
inductive Status
  | Unmodified
  | Added
  | Deleted
  | Modified
  | Renamed
  | Copied
  | Ignored
  | Untracked
  | Conflicted
  | Typechange
  | Unreadable
  deriving DecidableEq, Repr

/-- The conversion From Delta for Status (src/status.rs lines 130-146). -/
def Status.fromDelta : Delta → Status
  | .Unmodified => .Unmodified
  | .Added => .Added
  | .Deleted => .Deleted
  | .Modified => .Modified
  | .Renamed => .Renamed
  | .Copied => .Copied
  | .Ignored => .Ignored
  | .Untracked => .Untracked
  | .Typechange => .Typechange
  | .Unreadable => .Unreadable
  | .Conflicted => .Conflicted

/-- The tui Color values used by src/status.rs. -/
inductive Color
  | White
  | LightGreen
  | Red
  | Yellow
  | Cyan
  | LightBlue
  | Gray
  | Green
  | LightRed
  deriving DecidableEq, Repr

/-- The conversion From Status for char (src/status.rs lines 148-164).
The Typechange and Unreadable arms are todo!() in the source, i.e. they
panic; the panic is modelled as none. -/
def Status.toChar : Status → Option Char
  | .Unmodified => some ' '
  | .Added => some 'A'
  | .Deleted => some 'D'
  | .Modified => some 'M'
  | .Renamed => some 'R'
  | .Copied => some 'C'
  | .Ignored => some '!'
  | .Untracked => some 'U'
  | .Conflicted => some 'X'
  | .Typechange => none
  | .Unreadable => none

/-- The conversion From Status for Color (src/status.rs lines 166-182).
The Typechange and Unreadable arms are todo!() in the source, i.e. they
panic; the panic is modelled as none. -/
def Status.toColor : Status → Option Color
  | .Unmodified => some .White
  | .Added => some .LightGreen
  | .Deleted => some .Red
  | .Modified => some .Yellow
  | .Renamed => some .Cyan
  | .Copied => some .LightBlue
  | .Ignored => some .Gray
  | .Untracked => some .Green
  | .Conflicted => some .LightRed
  | .Typechange => none
  | .Unreadable => none

/-- A status entry (src/status.rs lines 10-15). -/
structure StatusEntry where
  repo_root : String
  old_file : String
  new_file : String
  status : Status
  deriving DecidableEq, Repr

/-- A raw change record as surfaced by git2: the optional old and new
paths of a DiffDelta together with its Delta classification. -/
structure DiffDelta where
  old_path : Option String
  new_path : Option String
  status : Delta
  deriving DecidableEq, Repr

/-- The conversion From (String, DiffDelta) for StatusEntry
(src/status.rs lines 17-36): both paths are copied from the raw record,
a missing path defaulting to the empty string (unwrap_or_default). -/
def StatusEntry.fromRaw (root : String) (d : DiffDelta) : StatusEntry :=
  { repo_root := root
    old_file := d.old_path.getD ""
    new_file := d.new_path.getD ""
    status := Status.fromDelta d.status }

/-- Path.join as used by abs_path_old and abs_path_new (src/status.rs
lines 51-57). Path.join would replace the base were the joined
component absolute, but the joined components here are the paths of a
git status report, which are always repository-relative, so the join
is plain concatenation with a separator. -/
def pathJoin (base p : String) : String :=
  base ++ "/" ++ p

/-- abs_path_old (src/status.rs lines 51-53). -/
def StatusEntry.abs_path_old (e : StatusEntry) : String :=
  pathJoin e.repo_root e.old_file

/-- abs_path_new (src/status.rs lines 55-57). -/
def StatusEntry.abs_path_new (e : StatusEntry) : String :=
  pathJoin e.repo_root e.new_file

/-- One observable external effect of a mutation operation: deleting a
file from disk (fs::remove_file) or invoking git with the given
argument list (process::Command::new("git")). -/
inductive Effect
  | removeFile (p : String)
  | git (args : List String)
  deriving DecidableEq, Repr

/-- The git invocations among a list of effects, in order. -/
def gitCalls (effs : List Effect) : List (List String) :=
  effs.filterMap fun e =>
    match e with
    | .git args => some args
    | _ => none

/-- The disk deletions among a list of effects, in order. -/
def deletions (effs : List Effect) : List String :=
  effs.filterMap fun e =>
    match e with
    | .removeFile p => some p
    | _ => none

/-- stage_to_index (src/status.rs lines 59-71): git add with the old
then the new absolute path for a rename, with the new absolute path
alone otherwise. -/
def StatusEntry.stage_to_index (e : StatusEntry) : List Effect :=
  match e.status with
  | .Renamed => [.git ["add", e.abs_path_old, e.abs_path_new]]
  | _ => [.git ["add", e.abs_path_new]]

/-- reset_from_workdir (src/status.rs lines 73-95): delete the new path
for Untracked; delete the new path then git checkout the old path for
Renamed; git checkout the new path for everything else. -/
def StatusEntry.reset_from_workdir (e : StatusEntry) : List Effect :=
  match e.status with
  | .Untracked => [.removeFile e.abs_path_new]
  | .Renamed =>
    [.removeFile e.abs_path_new, .git ["checkout", e.abs_path_old]]
  | _ => [.git ["checkout", e.abs_path_new]]

/-- unstage_to_workdir (src/status.rs lines 97-112): git restore
--staged on the new path for Deleted, git reset on the new path for
everything else. -/
def StatusEntry.unstage_to_workdir (e : StatusEntry) : List Effect :=
  match e.status with
  | .Deleted => [.git ["restore", "--staged", e.abs_path_new]]
  | _ => [.git ["reset", e.abs_path_new]]

/-- add_to_git (src/main.rs lines 108-113): like stage_to_index but
passing the entry's stored (repository-relative) paths. -/
def StatusEntry.add_to_git (e : StatusEntry) : List Effect :=
  match e.status with
  | .Renamed => [.git ["add", e.old_file, e.new_file]]
  | _ => [.git ["add", e.new_file]]

/-- pretty_string (src/status.rs lines 39-49): the glyph, a space and
the new path; for a rename the glyph, a space, the old path, the
literal arrow and the new path. Computing the glyph panics (todo!())
for Typechange and Unreadable, modelled as none. -/
def StatusEntry.pretty_string (e : StatusEntry) : Option String :=
  match e.status.toChar with
  | none => none
  | some c =>
    match e.status with
    | .Renamed =>
      some (String.mk [c] ++ " " ++ e.old_file ++ " -> " ++ e.new_file)
    | _ => some (String.mk [c] ++ " " ++ e.new_file)

/-- C1: for every status entry (the ones produced by the
workdir-vs-index comparison), reset_from_workdir on an Untracked entry
deletes the new path from disk and issues no git command; on a Renamed
entry it deletes the new path from disk and then checks out the old
path; on an entry of any other kind it checks out the new path and
deletes nothing. -/
theorem reset_from_workdir_policy (e : StatusEntry) :
    e.reset_from_workdir =
      (if e.status = .Untracked then [Effect.removeFile e.abs_path_new]
       else if e.status = .Renamed then
         [Effect.removeFile e.abs_path_new,
          Effect.git ["checkout", e.abs_path_old]]
       else [Effect.git ["checkout", e.abs_path_new]])
    ∧ gitCalls e.reset_from_workdir =
      (if e.status = .Untracked then []
       else if e.status = .Renamed then [["checkout", e.abs_path_old]]
       else [["checkout", e.abs_path_new]])
    ∧ deletions e.reset_from_workdir =
      (if e.status = .Untracked ∨ e.status = .Renamed then [e.abs_path_new]
       else []) := by
  obtain ⟨r, o, n, s⟩ := e
  cases s <;>
    simp [StatusEntry.reset_from_workdir, gitCalls, deletions]

/-- Witness for C1 at a concrete Renamed entry: the file is removed
first and the checkout of the old path issued second. -/
theorem reset_from_workdir_policy_witness :
    (StatusEntry.mk "/repo" "old.txt" "new.txt" Status.Renamed).reset_from_workdir =
      [Effect.removeFile "/repo/new.txt",
       Effect.git ["checkout", "/repo/old.txt"]] := by
  have h :=
    (reset_from_workdir_policy
      (StatusEntry.mk "/repo" "old.txt" "new.txt" Status.Renamed)).1
  exact h.trans (by decide)

/-- C2: for every status entry (the ones produced by the index-vs-HEAD
comparison), unstage_to_workdir on a Deleted entry runs git restore
--staged on the new path (the restoreStaged verb, restoring the index
entry from HEAD); on an entry of any other kind it runs git reset on
the new path (the resetPath verb); in neither case is any file deleted
from the working tree. -/
theorem unstage_to_workdir_policy (e : StatusEntry) :
    e.unstage_to_workdir =
      (if e.status = .Deleted then
        [Effect.git ["restore", "--staged", e.abs_path_new]]
       else [Effect.git ["reset", e.abs_path_new]])
    ∧ deletions e.unstage_to_workdir = [] := by
  obtain ⟨r, o, n, s⟩ := e
  cases s <;>
    simp [StatusEntry.unstage_to_workdir, deletions]

/-- Witness for C2 at a concrete Deleted entry and a concrete Modified
entry is subsumed by the Deleted one here. -/
theorem unstage_to_workdir_policy_witness :
    (StatusEntry.mk "/repo" "" "gone.txt" Status.Deleted).unstage_to_workdir =
      [Effect.git ["restore", "--staged", "/repo/gone.txt"]] := by
  have h :=
    (unstage_to_workdir_policy
      (StatusEntry.mk "/repo" "" "gone.txt" Status.Deleted)).1
  exact h.trans (by decide)

/-- C3: stage_to_index issues a single git add call whose path
arguments are exactly the old then the new absolute path for a Renamed
entry, and exactly the new absolute path alone for any other kind;
add_to_git of src/main.rs does the same with the stored relative
paths; neither deletes anything. -/
theorem stage_to_index_paths (e : StatusEntry) :
    gitCalls e.stage_to_index =
      [if e.status = .Renamed then ["add", e.abs_path_old, e.abs_path_new]
       else ["add", e.abs_path_new]]
    ∧ gitCalls e.add_to_git =
      [if e.status = .Renamed then ["add", e.old_file, e.new_file]
       else ["add", e.new_file]]
    ∧ deletions e.stage_to_index = [] := by
  obtain ⟨r, o, n, s⟩ := e
  cases s <;>
    simp [StatusEntry.stage_to_index, StatusEntry.add_to_git, gitCalls,
      deletions]

/-- Witness for C3 at a concrete Renamed entry: two path arguments, old
then new. -/
theorem stage_to_index_paths_witness :
    gitCalls
      (StatusEntry.mk "/repo" "a.txt" "b.txt" Status.Renamed).stage_to_index =
      [["add", "/repo/a.txt", "/repo/b.txt"]] := by
  have h :=
    (stage_to_index_paths
      (StatusEntry.mk "/repo" "a.txt" "b.txt" Status.Renamed)).1
  exact h.trans (by decide)

/-- StatefulList (src/main.rs lines 140-143): the tui ListState
selection index together with the item vector. -/
structure StatefulList (T : Type) where
  selected : Option Nat
  items : List T
  deriving DecidableEq, Repr

/-- with_items (src/main.rs lines 146-150): the selection is set to
index 0 unconditionally, even when items is empty. -/
def StatefulList.with_items {T : Type} (items : List T) : StatefulList T :=
  { selected := some 0, items := items }

/-- set_items (src/main.rs lines 152-166). With a previous selection
and an empty new vector, the expression items.len() - 1 underflows
usize and panics (debug build); the panic is modelled as none. The
source condition i >= len - 1 is written len - 1 <= i. -/
def StatefulList.set_items {T : Type} (l : StatefulList T)
    (items : List T) : Option (StatefulList T) :=
  match l.selected with
  | some i =>
    if items.length = 0 then none
    else
      some { selected := some (if items.length - 1 ≤ i then items.length - 1 else i),
             items := items }
  | none => some { selected := some 0, items := items }

/-- current (src/main.rs lines 168-173): self.items[i] panics when the
selected index is out of bounds, modelled as the outer none; an
in-bounds selection yields some (some item), no selection yields
some none. -/
def StatefulList.current {T : Type} (l : StatefulList T) : Option (Option T) :=
  match l.selected with
  | some i =>
    if h : i < l.items.length then some (some (l.items.get ⟨i, h⟩))
    else none
  | none => some none

/-- next (src/main.rs lines 175-187): with a selection on an empty
vector, items.len() - 1 underflows and panics, modelled as none. -/
def StatefulList.next {T : Type} (l : StatefulList T) : Option (StatefulList T) :=
  match l.selected with
  | some i =>
    if l.items.length = 0 then none
    else
      some { l with selected := some (if l.items.length - 1 ≤ i then 0 else i + 1) }
  | none => some { l with selected := some 0 }

/-- previous (src/main.rs lines 189-201): items.len() - 1 is computed
only in the i == 0 branch, so the underflow panic happens exactly on an
empty vector with the selection at 0. -/
def StatefulList.previous {T : Type} (l : StatefulList T) : Option (StatefulList T) :=
  match l.selected with
  | some i =>
    if i = 0 then
      if l.items.length = 0 then none
      else some { l with selected := some (l.items.length - 1) }
    else some { l with selected := some (i - 1) }
  | none => some { l with selected := some 0 }

/-- unselect (src/main.rs lines 203-205). -/
def StatefulList.unselect {T : Type} (l : StatefulList T) : StatefulList T :=
  { l with selected := none }

/-- Iterated next, propagating a panic. -/
def StatefulList.nextN {T : Type} (l : StatefulList T) :
    Nat → Option (StatefulList T)
  | 0 => some l
  | n + 1 => l.next.bind fun r => r.nextN n

/-- Cursor validity: a present selection is an in-range index into the
items. Equivalently, the selection is valid if present and absent
whenever the list is empty (a present in-range index forces the list to
be non-empty). -/
def StatefulList.inv {T : Type} (l : StatefulList T) : Bool :=
  match l.selected with
  | some i => decide (i < l.items.length)
  | none => true

/-- Truth of inv on the result of an operation that may panic: the
operation neither panicked nor produced an invalid cursor. -/
def invAfter {T : Type} (o : Option (StatefulList T)) : Bool :=
  match o with
  | some r => r.inv
  | none => false

/-- The stage branch of run_app (src/main.rs lines 237-242): stage the
current item when one is selected, do nothing otherwise; a panic inside
current propagates (outer none). -/
def handle_stage (l : StatefulList StatusEntry) : Option (List Effect) :=
  match l.current with
  | none => none
  | some none => some []
  | some (some e) => some e.add_to_git

/-- A valid selection steps to the cyclic successor index. -/
theorem next_valid (T : Type) (items : List T) (i : Nat)
    (hi : i < items.length) :
    (StatefulList.mk (some i) items).next =
      some (StatefulList.mk (some ((i + 1) % items.length)) items) := by
  have h0 : items.length ≠ 0 := by omega
  simp only [StatefulList.next]
  rw [if_neg h0]
  by_cases hle : items.length - 1 ≤ i
  · rw [if_pos hle]
    have hlen : i + 1 = items.length := by omega
    rw [hlen, Nat.mod_self]
  · rw [if_neg hle, Nat.mod_eq_of_lt (by omega : i + 1 < items.length)]

/-- Iterating next k times from a valid selection lands on the cyclic
offset of the start index by k. -/
theorem nextN_mod (T : Type) (items : List T) (k : Nat) :
    ∀ i, i < items.length →
      StatefulList.nextN (StatefulList.mk (some i) items) k =
        some (StatefulList.mk (some ((i + k) % items.length)) items) := by
  induction k with
  | zero =>
    intro i hi
    simp [StatefulList.nextN, Nat.mod_eq_of_lt hi]
  | succ k ih =>
    intro i hi
    have hnext := next_valid T items i hi
    have h2 : (i + 1) % items.length < items.length :=
      Nat.mod_lt _ (by omega)
    have ihh := ih ((i + 1) % items.length) h2
    have harith : i + 1 + k = i + (k + 1) := by omega
    simp only [StatefulList.nextN]
    rw [hnext]
    simp only [Option.some_bind]
    rw [ihh, Nat.mod_add_mod, harith]

/-- C4 counterexample: refreshing a list whose cursor is absent with a
non-empty vector re-selects index 0 (the claim says an absent cursor
stays absent), and refreshing a list with a present cursor to the
empty vector panics on the items.len() - 1 underflow instead of making
the cursor absent. -/
theorem set_items_reselects :
    (StatefulList.mk none ([] : List Nat)).set_items [0] =
      some (StatefulList.mk (some 0) [0])
    ∧ (StatefulList.mk (some 0) [(0 : Nat)]).set_items [] = none := by
  constructor <;> rfl

/-- C4 amended: refresh replaces the entries wholesale; with a present
cursor and a non-empty new vector the cursor clamps to
min(previous index, len - 1); with an absent cursor refresh re-selects
index 0 rather than staying absent; with a present cursor and an empty
new vector the items.len() - 1 computation underflows and panics; with
an absent cursor and an empty new vector the cursor becomes index 0,
which is out of range for the now-empty list. -/
theorem set_items_characterization (T : Type) (prev items : List T)
    (i : Nat) (h : items ≠ []) :
    (StatefulList.mk (some i) prev).set_items items =
      some (StatefulList.mk (some (min i (items.length - 1))) items)
    ∧ (StatefulList.mk none prev).set_items items =
      some (StatefulList.mk (some 0) items)
    ∧ (StatefulList.mk (some i) prev).set_items [] = none
    ∧ (StatefulList.mk none prev).set_items [] =
      some (StatefulList.mk (some 0) []) := by
  have h0 : items.length ≠ 0 := by simp [List.length_eq_zero, h]
  refine ⟨?_, rfl, rfl, rfl⟩
  simp only [StatefulList.set_items]
  rw [if_neg h0]
  by_cases hle : items.length - 1 ≤ i
  · rw [if_pos hle, Nat.min_eq_right hle]
  · rw [if_neg hle, Nat.min_eq_left (by omega : i ≤ items.length - 1)]

/-- Witness for the amended C4 at a concrete list: a stale cursor at 7
clamps to the last index 1 of the two-element refreshed list, an
absent cursor is re-selected to 0, and both empty-refresh behaviors are
exercised. -/
theorem set_items_characterization_witness :
    (StatefulList.mk (some 7) [(9 : Nat)]).set_items [3, 4] =
      some (StatefulList.mk (some (min 7 (([3, 4] : List Nat).length - 1))) [3, 4])
    ∧ (StatefulList.mk none [(9 : Nat)]).set_items [3, 4] =
      some (StatefulList.mk (some 0) [3, 4])
    ∧ (StatefulList.mk (some 7) [(9 : Nat)]).set_items [] = none
    ∧ (StatefulList.mk none [(9 : Nat)]).set_items [] =
      some (StatefulList.mk (some 0) []) :=
  set_items_characterization Nat [9] [3, 4] 7 (by decide)

/-- C5: with_items on the empty vector selects index 0 anyway, so the
constructed list has a present cursor on an empty entry list,
violating the cursor-validity invariant the claim asserts for every
operation. -/
theorem with_items_empty_breaks_inv :
    (StatefulList.with_items ([] : List Nat)).selected = some 0
    ∧ (StatefulList.with_items ([] : List Nat)).inv = false := by
  constructor <;> rfl

/-- C6: on the list produced by with_items [] (the startup state in a
repository with no changes) the cursor is present at index 0 while the
item vector is empty, so current indexes items[0] out of bounds and
panics, and the stage key handler propagates that panic instead of
being a no-op. -/
theorem current_empty_panics :
    (StatefulList.with_items ([] : List StatusEntry)).current = none
    ∧ handle_stage (StatefulList.with_items ([] : List StatusEntry)) = none := by
  constructor <;> rfl

/-- C7: the glyph and color mappings are not total and panic-free: both
conversions panic (todo!()) on Typechange and on Unreadable instead of
yielding a default value. -/
theorem glyph_color_not_total :
    Status.toChar .Typechange = none ∧ Status.toChar .Unreadable = none
    ∧ Status.toColor .Typechange = none
    ∧ Status.toColor .Unreadable = none := by
  refine ⟨rfl, rfl, rfl, rfl⟩

/-- C8: whenever the glyph of the entry's status is defined, a
non-Renamed entry pretty-prints as the glyph, one space and the new
path, and a Renamed entry as the glyph, one space, the old path, the
literal arrow and the new path. -/
theorem pretty_string_shape (e : StatusEntry) (c : Char)
    (h : e.status.toChar = some c) :
    e.pretty_string =
      some (if e.status = .Renamed then
        String.mk [c] ++ " " ++ e.old_file ++ " -> " ++ e.new_file
      else String.mk [c] ++ " " ++ e.new_file) := by
  obtain ⟨r, o, n, s⟩ := e
  cases s <;>
    first
      | exact Option.noConfusion h
      | (obtain rfl := Option.some.inj h; rfl)

/-- Witness for C8 at a concrete Renamed entry with glyph R. -/
theorem pretty_string_shape_witness :
    Status.toChar Status.Renamed = some 'R'
    ∧ (StatusEntry.mk "/r" "a.txt" "b.txt" Status.Renamed).pretty_string =
      some ("R" ++ " " ++ "a.txt" ++ " -> " ++ "b.txt") :=
  ⟨rfl, pretty_string_shape (StatusEntry.mk "/r" "a.txt" "b.txt" Status.Renamed) 'R' rfl⟩

/-- C9: on a non-empty list, next wraps from the last index to 0 and
previous wraps from 0 to the last index; iterating next length-many
times from any valid cursor returns to the very same state; and from
an absent cursor both moves select index 0. -/
theorem cyclic_moves (T : Type) (items : List T) (i : Nat)
    (h0 : items ≠ []) (hi : i < items.length) :
    (StatefulList.mk (some (items.length - 1)) items).next =
      some (StatefulList.mk (some 0) items)
    ∧ (StatefulList.mk (some 0) items).previous =
      some (StatefulList.mk (some (items.length - 1)) items)
    ∧ StatefulList.nextN (StatefulList.mk (some i) items) items.length =
      some (StatefulList.mk (some i) items)
    ∧ (StatefulList.mk none items).next =
      some (StatefulList.mk (some 0) items)
    ∧ (StatefulList.mk none items).previous =
      some (StatefulList.mk (some 0) items) := by
  have hlen : items.length ≠ 0 := by
    simpa using List.length_pos.mpr h0 |>.ne.symm
  refine ⟨?_, ?_, ?_, ?_, ?_⟩
  · have h := next_valid T items (items.length - 1) (by omega)
    have : items.length - 1 + 1 = items.length := by omega
    simpa [this, Nat.mod_self] using h
  · simp [StatefulList.previous, hlen]
  · have h := nextN_mod T items items.length i hi
    have : (i + items.length) % items.length = i := by
      simpa [Nat.add_mod_right] using Nat.mod_eq_of_lt hi
    simpa [this] using h
  · simp [StatefulList.next]
  · simp [StatefulList.previous]

/-- Witness for C9 on the three-element list [10, 20, 30] with the
cursor starting at index 1. -/
theorem cyclic_moves_witness :
    (StatefulList.mk (some (([10, 20, 30] : List Nat).length - 1)) [10, 20, 30]).next =
      some (StatefulList.mk (some 0) [10, 20, 30])
    ∧ (StatefulList.mk (some 0) [(10 : Nat), 20, 30]).previous =
      some (StatefulList.mk (some (([10, 20, 30] : List Nat).length - 1)) [10, 20, 30])
    ∧ StatefulList.nextN (StatefulList.mk (some 1) [(10 : Nat), 20, 30])
        ([10, 20, 30] : List Nat).length =
      some (StatefulList.mk (some 1) [10, 20, 30])
    ∧ (StatefulList.mk none [(10 : Nat), 20, 30]).next =
      some (StatefulList.mk (some 0) [10, 20, 30])
    ∧ (StatefulList.mk none [(10 : Nat), 20, 30]).previous =
      some (StatefulList.mk (some 0) [10, 20, 30]) :=
  cyclic_moves Nat [10, 20, 30] 1 (by decide) (by decide)

/-- C10 counterexample: a raw Modified record that reports an old path
(as the engine does for every modified file, where old and new path
coincide) yields an entry whose old_file is non-empty although its
kind is neither Renamed nor Copied. -/
theorem fromRaw_keeps_old_path :
    (StatusEntry.fromRaw "/r"
        (DiffDelta.mk (some "a.txt") (some "a.txt") Delta.Modified)).old_file ≠ ""
    ∧ (StatusEntry.fromRaw "/r"
        (DiffDelta.mk (some "a.txt") (some "a.txt") Delta.Modified)).status ≠ Status.Renamed
    ∧ (StatusEntry.fromRaw "/r"
        (DiffDelta.mk (some "a.txt") (some "a.txt") Delta.Modified)).status ≠ Status.Copied := by
  refine ⟨?_, ?_, ?_⟩ <;> decide

/-- C10 amended: the constructor copies the raw record verbatim:
new_file is the record's reported destination path and old_file the
record's reported old path, each defaulting to the empty string when
the record carries none; the kind is the translation of the record's
Delta; and old_file is empty exactly when the record reports no old
path (or reports the empty path), independently of the kind. -/
theorem fromRaw_characterization (root : String) (d : DiffDelta) :
    (StatusEntry.fromRaw root d).new_file = d.new_path.getD ""
    ∧ (StatusEntry.fromRaw root d).old_file = d.old_path.getD ""
    ∧ ((StatusEntry.fromRaw root d).old_file = "" ↔
        d.old_path = none ∨ d.old_path = some "")
    ∧ (StatusEntry.fromRaw root d).status = Status.fromDelta d.status := by
  refine ⟨rfl, rfl, ?_, rfl⟩
  cases h : d.old_path <;> simp [StatusEntry.fromRaw, h]

/-- Witness for the amended C10 at a concrete renamed raw record. -/
theorem fromRaw_characterization_witness :
    (StatusEntry.fromRaw "/r"
        (DiffDelta.mk (some "a.txt") (some "b.txt") Delta.Renamed)).new_file =
      ((some "b.txt").getD "")
    ∧ (StatusEntry.fromRaw "/r"
        (DiffDelta.mk (some "a.txt") (some "b.txt") Delta.Renamed)).old_file =
      ((some "a.txt").getD "")
    ∧ ((StatusEntry.fromRaw "/r"
        (DiffDelta.mk (some "a.txt") (some "b.txt") Delta.Renamed)).old_file = "" ↔
        (some "a.txt" : Option String) = none ∨ (some "a.txt" : Option String) = some "")
    ∧ (StatusEntry.fromRaw "/r"
        (DiffDelta.mk (some "a.txt") (some "b.txt") Delta.Renamed)).status =
      Status.fromDelta Delta.Renamed :=
  fromRaw_characterization "/r" (DiffDelta.mk (some "a.txt") (some "b.txt") Delta.Renamed)

end GitIstage
